import Mathlib

/-!
Verification of the nanobananatest repository: the generation request
service (src/services/gemini.ts) and the generation workflow controller
(src/App.tsx), shallowly embedded. The environment variable read, the
network transport, the wall clock and the id generator are passed in
explicitly; everything else follows the source line by line.
-/

/-- The enumerated aspect ratios of the service (type AspectRatio in
src/services/gemini.ts). -/
inductive AspectRatio
  | square
  | wide
  | tall
  | fourThree
  | threeFour
  deriving DecidableEq

/-- The string literal each AspectRatio constructor stands for. -/
def AspectRatio.str : AspectRatio → String
  | .square => "1:1"
  | .wide => "16:9"
  | .tall => "9:16"
  | .fourThree => "4:3"
  | .threeFour => "3:4"

/-- The enumerated model identifiers (type ModelType in
src/services/gemini.ts). -/
inductive ModelType
  | flash
  | preview
  deriving DecidableEq

/-- The string literal each ModelType constructor stands for. -/
def ModelType.str : ModelType → String
  | .flash => "gemini-2.5-flash-image"
  | .preview => "gemini-3.1-flash-image-preview"

/-- Input of the service (interface GenerationConfig). The two optional
fields are declared but never read by generateImage. -/
structure GenerationConfig where
  prompt : String
  aspectRatio : AspectRatio
  model : ModelType
  negativePrompt : Option String := none
  numImages : Option Nat := none
  deriving DecidableEq

/-- A text part of the outbound request body. -/
structure TextPart where
  text : String
  deriving DecidableEq

/-- The contents block of the outbound request. -/
structure Contents where
  parts : List TextPart
  deriving DecidableEq

/-- The image configuration block of the outbound request. -/
structure ImageConfig where
  aspectRatio : String
  deriving DecidableEq

/-- The config block of the outbound request. -/
structure RequestConfig where
  imageConfig : ImageConfig
  deriving DecidableEq

/-- The outbound request generateImage hands to
ai.models.generateContent. -/
structure GenRequest where
  model : String
  contents : Contents
  config : RequestConfig
  deriving DecidableEq

/-- An inline binary payload of a response part: a MIME type and the
base64 text of the data. -/
structure InlineData where
  mimeType : String
  data : String
  deriving DecidableEq

/-- A part of a response candidate; it may carry text, inline data, both
or neither. -/
structure RespPart where
  text : Option String := none
  inlineData : Option InlineData := none
  deriving DecidableEq

/-- The content of a response candidate. -/
structure Content where
  parts : Option (List RespPart) := none
  deriving DecidableEq

/-- One candidate of the response. -/
structure Candidate where
  content : Option Content := none
  deriving DecidableEq

/-- The structured reply of the external endpoint. -/
structure GenResponse where
  candidates : Option (List Candidate) := none
  deriving DecidableEq

/-- getAI from src/services/gemini.ts: reads the GEMINI_API_KEY value
from the environment (here passed in, none when the variable is unset)
and throws when it is missing or empty, the JavaScript truthiness test
!apiKey. -/
def getAI (apiKeyEnv : Option String) : Except String String :=
  match apiKeyEnv with
  | none => .error "GEMINI_API_KEY is not set in the environment."
  | some apiKey =>
    if apiKey.isEmpty then .error "GEMINI_API_KEY is not set in the environment."
    else .ok apiKey

/-- The request body generateImage builds: the model identifier, a
single text part holding the prompt, and an imageConfig block holding
the aspect ratio. -/
def buildRequest (config : GenerationConfig) : GenRequest :=
  { model := config.model.str
  , contents := { parts := [{ text := config.prompt }] }
  , config := { imageConfig := { aspectRatio := config.aspectRatio.str } } }

/-- Mirror of the optional chain
response.candidates?.[0]?.content?.parts in generateImage. -/
def firstCandidateParts (response : GenResponse) : Option (List RespPart) :=
  response.candidates.bind fun cs =>
    cs.head?.bind fun c0 =>
      c0.content.bind fun content => content.parts

/-- The data URI the loop body of generateImage pushes for an
inline-data part. -/
def dataURI (d : InlineData) : String :=
  "data:" ++ d.mimeType ++ ";base64," ++ d.data

/-- The result accumulation loop of generateImage: walk the parts of
the first candidate and push a data URI for every part carrying inline
data, skipping the rest. -/
def extractImages (response : GenResponse) : List String :=
  match firstCandidateParts response with
  | none => []
  | some parts => parts.filterMap fun part => part.inlineData.map dataURI

/-- generateImage from src/services/gemini.ts. The network is an
explicit transport function; the second component of the result records
the outbound requests actually issued, so that eagerness of the
credential check is observable. -/
def generateImage (apiKeyEnv : Option String)
    (net : GenRequest → Except String GenResponse)
    (config : GenerationConfig) : Except String (List String) × List GenRequest :=
  match getAI apiKeyEnv with
  | .error e => (.error e, [])
  | .ok _ =>
    let req := buildRequest config
    match net req with
    | .error e => (.error e, [req])
    | .ok response => (.ok (extractImages response), [req])

/-- The inline-data payloads of the first candidate of a response, in
the order its parts appear; parts without inline data contribute
nothing. This is the count-and-order side of claim C1. -/
def inlineDataParts (response : GenResponse) : List InlineData :=
  match firstCandidateParts response with
  | none => []
  | some parts => parts.filterMap fun part => part.inlineData

/-- A user-selected reference file held in controller state (the DOM
File objects of App.tsx, identified here by name). -/
structure RefFile where
  name : String
  deriving DecidableEq

/-- A displayed result record (interface GeneratedImage in App.tsx). -/
structure GeneratedImage where
  id : String
  url : String
  prompt : String
  timestamp : Nat
  deriving DecidableEq

/-- The mutable state of the App component that the generation
lifecycle touches: prompt, aspectRatio, model, isGenerating, images and
uploadedFiles. -/
structure AppState where
  prompt : String
  aspectRatio : AspectRatio
  model : ModelType
  isGenerating : Bool
  images : List GeneratedImage
  uploadedFiles : List RefFile
  deriving DecidableEq

/-- The observable actions handleGenerate performs, in program order:
state setter calls, the service invocation, and the alert dialog. -/
inductive Event
  | setGenerating (b : Bool)
  | serviceCall (config : GenerationConfig)
  | setImages
  | alertNotice (msg : String)
  deriving DecidableEq

/-- The configurations of the service invocations recorded in a trace:
each one stands for one outbound network call attempt. -/
def serviceCalls (events : List Event) : List GenerationConfig :=
  events.filterMap fun e =>
    match e with
    | .serviceCall c => some c
    | _ => none

/-- The user-visible notices recorded in a trace. -/
def alertsOf (events : List Event) : List String :=
  events.filterMap fun e =>
    match e with
    | .alertNotice m => some m
    | _ => none

/-- The guard test !prompt.trim() of handleGenerate (also used in the
disabled attribute of the generate button): true exactly when the
prompt is empty or whitespace-only, since trim removes leading and
trailing whitespace and leaves the empty string precisely then. -/
def promptIsBlank (p : String) : Bool :=
  p.data.all Char.isWhitespace

/-- The results.map callback of handleGenerate: one GeneratedImage per
returned payload, with Math.random and Date.now called once per element
in order (i is the index of the next call to each supply). -/
def mkBatch (p : String) (ids : Nat → String) (clock : Nat → Nat) :
    Nat → List String → List GeneratedImage
  | _, [] => []
  | i, url :: rest =>
    { id := ids i, url := url, prompt := p, timestamp := clock i }
      :: mkBatch p ids clock (i + 1) rest

/-- handleGenerate from App.tsx. The awaited outcome of generateImage
is passed in as serviceResult; ids and clock supply the successive
values of Math.random-based ids and Date.now. Returns the state after
the React updates settle together with the trace of actions in program
order. -/
def handleGenerate (s : AppState) (serviceResult : Except String (List String))
    (ids : Nat → String) (clock : Nat → Nat) : AppState × List Event :=
  if promptIsBlank s.prompt then (s, [])
  else
    let cfg : GenerationConfig :=
      { prompt := s.prompt, aspectRatio := s.aspectRatio, model := s.model }
    match serviceResult with
    | .ok results =>
      let newImages := mkBatch s.prompt ids clock 0 results
      ({ s with images := newImages ++ s.images, isGenerating := false },
       [.setGenerating true, .serviceCall cfg, .setImages, .setGenerating false])
    | .error _ =>
      ({ s with isGenerating := false },
       [.setGenerating true, .serviceCall cfg,
        .alertNotice "Failed to generate image. Please check your API key.",
        .setGenerating false])

/-- The generate control as wired in App.tsx: the button carries
disabled set to isGenerating or the blank-prompt test, so a click (or a
programmatic activation of the control) runs handleGenerate only when
neither holds. -/
def triggerGenerate (s : AppState) (serviceResult : Except String (List String))
    (ids : Nat → String) (clock : Nat → Nat) : AppState × List Event :=
  if s.isGenerating || promptIsBlank s.prompt then (s, [])
  else handleGenerate s serviceResult ids clock

/-- handleFileUpload from App.tsx: the previous list concatenated with
the newly selected batch, cut by slice(0, 5). -/
def handleFileUpload (prev newFiles : List RefFile) : List RefFile :=
  (prev ++ newFiles).take 5

/-- Formalised from the wording of claim C8: the most recent 5 entries
of a list whose later elements were selected later, that is its last 5
elements. -/
def mostRecentFive (l : List RefFile) : List RefFile :=
  l.drop (l.length - 5)

/-- Whether every record of a batch carries one shared timestamp;
formalised from the wording of claim C9. -/
def allSameTimestamp (batch : List GeneratedImage) : Bool :=
  match batch with
  | [] => true
  | first :: rest => rest.all fun img => img.timestamp == first.timestamp

/-- Response used to witness generateImage_success_format: one text
part followed by two inline-data parts. -/
def sampleResponse : GenResponse :=
  { candidates := some
      [ { content := some
            { parts := some
                [ { text := some "here you go" }
                , { inlineData := some { mimeType := "image/png", data := "AAAA" } }
                , { inlineData := some { mimeType := "image/jpeg", data := "BBBB" } } ] } } ] }

/-- Transport used to witness generateImage_success_format: every
request gets sampleResponse back. -/
def sampleNet : GenRequest → Except String GenResponse :=
  fun _ => .ok sampleResponse

/-- Configuration used in several witnesses. -/
def sampleConfig : GenerationConfig :=
  { prompt := "a red bicycle", aspectRatio := .wide, model := .flash }

/-- Configuration agreeing with sampleConfig on the three used fields
but carrying both optional fields. -/
def sampleConfigOpt : GenerationConfig :=
  { prompt := "a red bicycle", aspectRatio := .wide, model := .flash,
    negativePrompt := some "blurry", numImages := some 4 }

/-- Controller state used in several witnesses: a nonblank prompt, no
outstanding submission, empty history. -/
def readyState : AppState :=
  { prompt := "a red bicycle", aspectRatio := .square, model := .flash,
    isGenerating := false, images := [], uploadedFiles := [] }

/-- Controller state with a whitespace-only prompt. -/
def blankState : AppState :=
  { readyState with prompt := "   " }

/-- Controller state with an outstanding submission in flight. -/
def busyState : AppState :=
  { readyState with isGenerating := true }

/-- C1: a successful generateImage call returns exactly one data URI
per inline-data part of the first candidate of the response, in the
order those parts appear, each formatted from the exact MIME type and
payload of its part; parts without inline data are ignored and zero
inline-data parts yield the empty list, not an error. -/
theorem generateImage_success_format (key : String)
    (net : GenRequest → Except String GenResponse)
    (config : GenerationConfig) (response : GenResponse)
    (hkey : key.isEmpty = false)
    (hnet : net (buildRequest config) = .ok response) :
    (generateImage (some key) net config).1 =
      .ok ((inlineDataParts response).map dataURI) ∧
    ((inlineDataParts response).map dataURI).length =
      (inlineDataParts response).length := by
  constructor
  · simp only [generateImage, getAI, hkey, Bool.false_eq_true, if_false, hnet]
    simp only [extractImages, inlineDataParts]
    cases firstCandidateParts response with
    | none => rfl
    | some parts => simp [List.map_filterMap]
  · exact List.length_map _ _

/-- Concrete run of generateImage_success_format: a response holding a
text part and two inline-data parts produces exactly the two data URIs,
in order. -/
theorem generateImage_success_format_witness :
    ("k" : String).isEmpty = false ∧
    sampleNet (buildRequest sampleConfig) = .ok sampleResponse ∧
    (generateImage (some "k") sampleNet sampleConfig).1 =
      .ok ["data:image/png;base64,AAAA", "data:image/jpeg;base64,BBBB"] := by
  refine ⟨by decide, rfl, ?_⟩
  exact (generateImage_success_format "k" sampleNet sampleConfig sampleResponse
    (by decide) rfl).1.trans rfl

/-- C2: with the GEMINI_API_KEY variable absent from the environment,
generateImage fails with the getAI error and the list of issued
outbound requests is empty, so the check precedes any network call. -/
theorem generateImage_missing_key (net : GenRequest → Except String GenResponse)
    (config : GenerationConfig) :
    generateImage none net config =
      (.error "GEMINI_API_KEY is not set in the environment.", []) := rfl

/-- C10: two configurations agreeing on prompt, aspectRatio and model
build the same outbound request and make generateImage behave
identically, whatever the environment and transport; negativePrompt and
numImages never influence the call. -/
theorem generateImage_ignores_optional_fields (c1 c2 : GenerationConfig)
    (apiKeyEnv : Option String) (net : GenRequest → Except String GenResponse)
    (hp : c1.prompt = c2.prompt) (ha : c1.aspectRatio = c2.aspectRatio)
    (hm : c1.model = c2.model) :
    buildRequest c1 = buildRequest c2 ∧
    generateImage apiKeyEnv net c1 = generateImage apiKeyEnv net c2 := by
  have hreq : buildRequest c1 = buildRequest c2 := by
    simp [buildRequest, hp, ha, hm]
  refine ⟨hreq, ?_⟩
  unfold generateImage
  rw [hreq]

/-- Concrete run of generateImage_ignores_optional_fields on two
configurations that differ exactly in the optional fields. -/
theorem generateImage_ignores_optional_fields_witness :
    sampleConfig.prompt = sampleConfigOpt.prompt ∧
    sampleConfig.aspectRatio = sampleConfigOpt.aspectRatio ∧
    sampleConfig.model = sampleConfigOpt.model ∧
    (buildRequest sampleConfig = buildRequest sampleConfigOpt ∧
     generateImage (some "k") sampleNet sampleConfig =
       generateImage (some "k") sampleNet sampleConfigOpt) :=
  ⟨rfl, rfl, rfl,
   generateImage_ignores_optional_fields sampleConfig sampleConfigOpt
     (some "k") sampleNet rfl rfl rfl⟩

/-- The urls of a batch are exactly the returned payloads, in order. -/
theorem mkBatch_map_url (p : String) (ids : Nat → String) (clock : Nat → Nat)
    (i : Nat) (urls : List String) :
    (mkBatch p ids clock i urls).map GeneratedImage.url = urls := by
  induction urls generalizing i with
  | nil => rfl
  | cons url rest ih => simp [mkBatch, ih]

/-- Every record of a batch carries the prompt that produced it. -/
theorem mkBatch_map_prompt (p : String) (ids : Nat → String) (clock : Nat → Nat)
    (i : Nat) (urls : List String) :
    (mkBatch p ids clock i urls).map GeneratedImage.prompt =
      urls.map fun _ => p := by
  induction urls generalizing i with
  | nil => rfl
  | cons url rest ih => simp [mkBatch, ih]

/-- The timestamps of a batch are the successive clock readings, one
Date.now call per record. -/
theorem mkBatch_map_timestamp (p : String) (ids : Nat → String) (clock : Nat → Nat)
    (i : Nat) (urls : List String) :
    (mkBatch p ids clock i urls).map GeneratedImage.timestamp =
      (List.range' i urls.length).map clock := by
  induction urls generalizing i with
  | nil => rfl
  | cons url rest ih => simp [mkBatch, ih, List.range']

/-- C3: once a submission with a nonblank prompt completes, whether the
service succeeded or failed, the in-flight flag ends up false and the
final action of the trace is the setter call clearing it. -/
theorem handleGenerate_clears_flag_last (s : AppState)
    (serviceResult : Except String (List String))
    (ids : Nat → String) (clock : Nat → Nat)
    (h : promptIsBlank s.prompt = false) :
    (handleGenerate s serviceResult ids clock).1.isGenerating = false ∧
    (handleGenerate s serviceResult ids clock).2.getLast? =
      some (.setGenerating false) := by
  cases serviceResult <;> simp [handleGenerate, h]

/-- Concrete run of handleGenerate_clears_flag_last on a successful
submission from readyState. -/
theorem handleGenerate_clears_flag_last_witness :
    promptIsBlank readyState.prompt = false ∧
    ((handleGenerate readyState (.ok ["u1"]) (fun _ => "id0") (fun _ => 7)).1.isGenerating
        = false ∧
     (handleGenerate readyState (.ok ["u1"]) (fun _ => "id0") (fun _ => 7)).2.getLast? =
        some (.setGenerating false)) :=
  ⟨by decide,
   handleGenerate_clears_flag_last readyState (.ok ["u1"])
     (fun _ => "id0") (fun _ => 7) (by decide)⟩

/-- C6: with an empty or whitespace-only prompt, handleGenerate returns
at the guard: the state is unchanged and the trace is empty, so the
service is never invoked and the in-flight flag never moves. -/
theorem handleGenerate_blank_noop (s : AppState)
    (serviceResult : Except String (List String))
    (ids : Nat → String) (clock : Nat → Nat)
    (h : promptIsBlank s.prompt = true) :
    handleGenerate s serviceResult ids clock = (s, []) := by
  simp [handleGenerate, h]

/-- Concrete run of handleGenerate_blank_noop on a whitespace-only
prompt. -/
theorem handleGenerate_blank_noop_witness :
    promptIsBlank blankState.prompt = true ∧
    handleGenerate blankState (.ok ["u1"]) (fun _ => "id0") (fun _ => 7) =
      (blankState, []) :=
  ⟨by decide,
   handleGenerate_blank_noop blankState (.ok ["u1"])
     (fun _ => "id0") (fun _ => 7) (by decide)⟩

/-- C7: when the service call of a submission fails, the history list
is left exactly as it was, and the trace carries a single user-visible
notice whose text is the same fixed sentence whatever the underlying
error was, so no structured detail of the failure is retained. -/
theorem handleGenerate_failure_keeps_history (s : AppState) (e : String)
    (ids : Nat → String) (clock : Nat → Nat)
    (h : promptIsBlank s.prompt = false) :
    (handleGenerate s (.error e) ids clock).1.images = s.images ∧
    alertsOf (handleGenerate s (.error e) ids clock).2 =
      ["Failed to generate image. Please check your API key."] := by
  simp [handleGenerate, h, alertsOf, List.filterMap]

/-- Concrete run of handleGenerate_failure_keeps_history on a failed
submission from readyState. -/
theorem handleGenerate_failure_keeps_history_witness :
    promptIsBlank readyState.prompt = false ∧
    ((handleGenerate readyState (.error "boom") (fun _ => "id0") (fun _ => 7)).1.images =
        readyState.images ∧
     alertsOf (handleGenerate readyState (.error "boom") (fun _ => "id0") (fun _ => 7)).2 =
        ["Failed to generate image. Please check your API key."]) :=
  ⟨by decide,
   handleGenerate_failure_keeps_history readyState "boom"
     (fun _ => "id0") (fun _ => 7) (by decide)⟩

/-- C4: a successful submission with k payloads makes the new history
the batch of k fresh records followed by every prior entry, and the
urls of the batch are the returned payloads in their original order, so
positions 0 to k-1 hold the new records in payload order and the prior
entries keep their relative order after them. -/
theorem handleGenerate_success_prepends (s : AppState) (results : List String)
    (ids : Nat → String) (clock : Nat → Nat)
    (h : promptIsBlank s.prompt = false) :
    (handleGenerate s (.ok results) ids clock).1.images =
      mkBatch s.prompt ids clock 0 results ++ s.images ∧
    (mkBatch s.prompt ids clock 0 results).map GeneratedImage.url = results ∧
    (mkBatch s.prompt ids clock 0 results).length = results.length := by
  refine ⟨by simp [handleGenerate, h], mkBatch_map_url .., ?_⟩
  have := congrArg List.length (mkBatch_map_url s.prompt ids clock 0 results)
  simpa using this

/-- Concrete run of handleGenerate_success_prepends: two payloads land
in front of an existing history entry. -/
theorem handleGenerate_success_prepends_witness :
    promptIsBlank readyState.prompt = false ∧
    ((handleGenerate readyState (.ok ["u1", "u2"]) (fun _ => "id0") (fun _ => 7)).1.images =
        mkBatch readyState.prompt (fun _ => "id0") (fun _ => 7) 0 ["u1", "u2"] ++
          readyState.images ∧
     (mkBatch readyState.prompt (fun _ => "id0") (fun _ => 7) 0 ["u1", "u2"]).map
        GeneratedImage.url = ["u1", "u2"] ∧
     (mkBatch readyState.prompt (fun _ => "id0") (fun _ => 7) 0 ["u1", "u2"]).length = 2) :=
  ⟨by decide,
   handleGenerate_success_prepends readyState ["u1", "u2"]
     (fun _ => "id0") (fun _ => 7) (by decide)⟩

/-- C5: while a submission is in flight the generate control is
disabled, so activating it again, however rapidly or programmatically,
runs nothing: no service call is recorded and the state is untouched. -/
theorem triggerGenerate_inflight_no_second_call (s : AppState)
    (serviceResult : Except String (List String))
    (ids : Nat → String) (clock : Nat → Nat)
    (h : s.isGenerating = true) :
    serviceCalls (triggerGenerate s serviceResult ids clock).2 = [] ∧
    (triggerGenerate s serviceResult ids clock).1 = s := by
  simp [triggerGenerate, h, serviceCalls]

/-- Concrete run of triggerGenerate_inflight_no_second_call from
busyState. -/
theorem triggerGenerate_inflight_no_second_call_witness :
    busyState.isGenerating = true ∧
    (serviceCalls (triggerGenerate busyState (.ok ["u1"]) (fun _ => "id0") (fun _ => 7)).2
        = [] ∧
     (triggerGenerate busyState (.ok ["u1"]) (fun _ => "id0") (fun _ => 7)).1 = busyState) :=
  ⟨by decide,
   triggerGenerate_inflight_no_second_call busyState (.ok ["u1"])
     (fun _ => "id0") (fun _ => 7) (by decide)⟩

/-- C8 counterexample: five already-uploaded files plus one newly
selected file. handleFileUpload keeps the first five of the
concatenation (the five oldest, dropping the new file entirely), which
is not the most recent five. -/
theorem handleFileUpload_not_most_recent_five :
    handleFileUpload
        [⟨"a"⟩, ⟨"b"⟩, ⟨"c"⟩, ⟨"d"⟩, ⟨"e"⟩] [⟨"f"⟩] ≠
      mostRecentFive ([⟨"a"⟩, ⟨"b"⟩, ⟨"c"⟩, ⟨"d"⟩, ⟨"e"⟩] ++ [⟨"f"⟩]) := by
  decide

/-- C8 amended: the upload operation caps the list at 5 by keeping the
first 5 of existing followed by newly added: every existing entry up to
the fifth survives in order, the earliest-selected new files fill
whatever room is left, and the latest-selected overflow is dropped. -/
theorem handleFileUpload_cap (prev newFiles : List RefFile) :
    handleFileUpload prev newFiles =
      prev.take 5 ++ newFiles.take (5 - prev.length) ∧
    (handleFileUpload prev newFiles).length =
      min 5 (prev.length + newFiles.length) := by
  constructor
  · simp [handleFileUpload, List.take_append_eq_append_take]
  · simp [handleFileUpload]

/-- C9 counterexample: a successful submission returning two payloads,
run against a clock that advances by one millisecond between the two
Date.now calls; the two records of the batch carry different
timestamps, so no single per-batch timestamp exists. -/
theorem handleGenerate_timestamps_can_differ :
    allSameTimestamp
        (handleGenerate readyState (.ok ["u1", "u2"])
          (fun _ => "id0") (fun i => i)).1.images = false := by
  decide

/-- C9 amended: every record of a successful batch carries the prompt
that produced it, and the timestamp of the record at position i is the
reading of the clock at the i-th Date.now call — the timestamp is
captured once per record, not once per batch, so the records share a
timestamp only when the clock does not advance while the batch is
built. -/
theorem handleGenerate_batch_provenance (s : AppState) (results : List String)
    (ids : Nat → String) (clock : Nat → Nat)
    (h : promptIsBlank s.prompt = false) :
    (handleGenerate s (.ok results) ids clock).1.images =
      mkBatch s.prompt ids clock 0 results ++ s.images ∧
    (mkBatch s.prompt ids clock 0 results).map GeneratedImage.prompt =
      results.map (fun _ => s.prompt) ∧
    (mkBatch s.prompt ids clock 0 results).map GeneratedImage.timestamp =
      (List.range results.length).map clock := by
  refine ⟨by simp [handleGenerate, h], mkBatch_map_prompt .., ?_⟩
  rw [mkBatch_map_timestamp, List.range_eq_range']

/-- Concrete run of handleGenerate_batch_provenance on a two-payload
batch with a ticking clock. -/
theorem handleGenerate_batch_provenance_witness :
    promptIsBlank readyState.prompt = false ∧
    ((handleGenerate readyState (.ok ["u1", "u2"]) (fun _ => "id0") (fun i => i)).1.images =
        mkBatch readyState.prompt (fun _ => "id0") (fun i => i) 0 ["u1", "u2"] ++
          readyState.images ∧
     (mkBatch readyState.prompt (fun _ => "id0") (fun i => i) 0 ["u1", "u2"]).map
        GeneratedImage.prompt = ["u1", "u2"].map (fun _ => readyState.prompt) ∧
     (mkBatch readyState.prompt (fun _ => "id0") (fun i => i) 0 ["u1", "u2"]).map
        GeneratedImage.timestamp = (List.range (["u1", "u2"] : List String).length).map
          (fun i => i)) :=
  ⟨by decide,
   handleGenerate_batch_provenance readyState ["u1", "u2"]
     (fun _ => "id0") (fun i => i) (by decide)⟩
